import Mathlib

/-!
Verification development for the client-side delta manager
(`packages/loader/container-loader/src/deltaManager.ts`).

The TypeScript class `DeltaManager` is embedded shallowly as an executable
state machine: its mutable fields become a Lean structure, each method
becomes a pure transition `DeltaManager → ... → DeltaManager × List Effect`,
and observable actions (handler invocations, telemetry, storage fetches,
event emissions, outbound submissions) are recorded in an `Effect` trace.
Asynchronous resolution points (the `getDeltas` promise, connection events)
are delivered as explicit events to a step function, matching the
single-threaded cooperative scheduling of the JavaScript runtime.

Collaborator modules of the same repository that are not part of the given
sources (`deltaQueue.ts`, `contentCache.ts`, `@prague/utils`) are modelled
from the specification; each such definition carries a doc comment starting
with `Modelled from the spec:`.
-/

namespace Fluid

/- Constants, deltaManager.ts lines 27-40. -/

def MaxReconnectDelay : Nat := 8000

def InitialReconnectDelay : Nat := 1000

def MissingFetchDelay : Nat := 100

def MaxFetchDelay : Nat := 10000

def MaxBatchDeltas : Nat := 2000

def DefaultContentBufferSize : Nat := 10

/- This can be anything other than null (source line 35). -/
def ImmediateNoOpResponse : String := ""

/- Reconnection is only enabled for browser clients; `Browser` is the default
client type (source line 123). -/
def Browser : String := "browser"

/-- Message types named by the source (`MessageType` import).  `SystemOther`
stands for a type on which the `isSystemType` predicate holds; the spec's
taxonomy lists `Operation`, `Propose`, `NoOp`, `ClientJoin`, `ClientLeave`,
"plus other system types identified by an `isSystemType` predicate". -/
inductive MessageType where
  | Operation
  | Propose
  | NoOp
  | ClientJoin
  | ClientLeave
  | SystemOther
deriving DecidableEq, Repr

/-- Modelled from the spec: `isSystemType` is imported from `@prague/utils`,
which is not among the given sources.  Per the spec's message-type taxonomy
(§3), system types are the "other" types beyond the five named ones;
`SystemOther` stands for such a type. -/
def isSystemType (t : MessageType) : Bool :=
  match t with
  | MessageType.SystemOther => true
  | _ => false

structure ITrace where
  action : String
  service : String
  timestamp : Nat
deriving DecidableEq, Repr

/-- Inbound server-sequenced message.  Payloads are opaque in this model, so
`contents` is `Option String` with `none` standing for an absent
(`undefined`/split-out) payload. -/
structure ISequencedDocumentMessage where
  sequenceNumber : Nat
  minimumSequenceNumber : Nat
  clientId : String
  clientSequenceNumber : Nat
  type : MessageType
  contents : Option String
  traces : List ITrace
deriving DecidableEq, Repr

/-- Outbound envelope before sequencing (source `IDocumentMessage`);
`contents : Option String` with `none` standing for `null`. -/
structure IDocumentMessage where
  clientSequenceNumber : Nat
  contents : Option String
  referenceSequenceNumber : Nat
  traces : List ITrace
  type : MessageType
deriving DecidableEq, Repr

/-- Result of `createOutboundMessage`: either the plain core message or an
`IDocumentSystemMessage`, which extends the core with a top-level `data`
field. -/
inductive OutboundMessage where
  | plain (core : IDocumentMessage)
  | system (core : IDocumentMessage) (data : Option String)
deriving DecidableEq, Repr

def outboundClientSeq (m : OutboundMessage) : Nat :=
  match m with
  | OutboundMessage.plain core => core.clientSequenceNumber
  | OutboundMessage.system core _ => core.clientSequenceNumber

/-- Top-level `data` field of an outbound message: `some d` when the message
is an `IDocumentSystemMessage` carrying `data = d` (where `d = none` models a
null `data` value), `none` when the message has no `data` field at all. -/
def systemData (m : OutboundMessage) : Option (Option String) :=
  match m with
  | OutboundMessage.plain _ => none
  | OutboundMessage.system _ data => some data

/-- Content message produced by the `op-content` channel (source
`IContentMessage`), matched to an envelope by `(clientId, clientSequenceNumber)`. -/
structure IContentMessage where
  clientId : String
  clientSequenceNumber : Nat
  contents : String
deriving DecidableEq, Repr

structure ISignalMessage where
  content : String
deriving DecidableEq, Repr

/-- Modelled from the spec: `DeltaQueue` (`container-loader/src/deltaQueue.ts`
is not among the given sources).  Spec §4.1: state is
`(paused, systemPaused)` plus the queued items; the queue drains only when
both flags are false; `clear()` discards queued items; each of
`pause`/`resume`/`systemPause`/`systemResume` sets or clears only its own
flag. -/
structure DeltaQueue (α : Type) where
  items : List α
  paused : Bool
  systemPaused : Bool
deriving DecidableEq, Repr

def pushQ {α : Type} (q : DeltaQueue α) (a : α) : DeltaQueue α :=
  { q with items := q.items ++ [a] }

def clearQ {α : Type} (q : DeltaQueue α) : DeltaQueue α :=
  { q with items := [] }

def pauseQ {α : Type} (q : DeltaQueue α) : DeltaQueue α :=
  { q with paused := true }

def resumeQ {α : Type} (q : DeltaQueue α) : DeltaQueue α :=
  { q with paused := false }

def systemPauseQ {α : Type} (q : DeltaQueue α) : DeltaQueue α :=
  { q with systemPaused := true }

def systemResumeQ {α : Type} (q : DeltaQueue α) : DeltaQueue α :=
  { q with systemPaused := false }

/-- The live `DeltaConnection`; only the details used by the claims are
kept. -/
structure DeltaConnection where
  clientId : String
  closed : Bool
deriving DecidableEq, Repr

/-- Observable actions of the delta manager, recorded as a trace. -/
inductive Effect where
  | telemetry (eventName : String)
  | fetchStarted (fromSeq : Nat) (toSeq : Option Nat)
  | handlerPrepare (sequenceNumber : Nat)
  | handlerProcess (sequenceNumber : Nat)
  | handlerPostProcess (sequenceNumber : Nat)
  | submitPushed (message : OutboundMessage)
  | emitDisconnect (wasNack : Bool)
  | connectCoreCalled (delay : Nat)
  | ackTimerArmed
  | assertionFailed (sequenceNumber : Nat)
deriving DecidableEq, Repr

def processedSeqs (effs : List Effect) : List Nat :=
  effs.filterMap (fun e =>
    match e with
    | Effect.handlerProcess n => some n
    | _ => none)

def fetchStarts (effs : List Effect) : List (Nat × Option Nat) :=
  effs.filterMap (fun e =>
    match e with
    | Effect.fetchStarted f t => some (f, t)
    | _ => none)

def submittedMessages (effs : List Effect) : List OutboundMessage :=
  effs.filterMap (fun e =>
    match e with
    | Effect.submitPushed m => some m
    | _ => none)

/-- Mutable state of the `DeltaManager` class (source lines 47-84).
`handlerAttached` models `this.handler !== undefined`; `errored` models the
inbound queue having halted on a worker error (a thrown assertion). -/
structure DeltaManager where
  clientType : String
  pending : List ISequencedDocumentMessage
  fetching : Bool
  updateHasBeenRequested : Bool
  updateSequenceNumberTimer : Bool
  readonly : Bool
  minSequenceNumber : Nat
  lastQueuedSequenceNumber : Option Nat
  largestSequenceNumber : Option Nat
  baseSequenceNumber : Nat
  inbound : DeltaQueue ISequencedDocumentMessage
  outbound : DeltaQueue OutboundMessage
  inboundSignal : DeltaQueue ISignalMessage
  connection : Option DeltaConnection
  clientSequenceNumber : Nat
  closed : Bool
  handlerAttached : Bool
  contentCache : List IContentMessage
  errored : Bool
deriving DecidableEq, Repr

/-- State after the constructor (source lines 116-182): all three queues are
paused (user flag — "Require the user to start the processing"), the client
starts in readonly mode, counters at zero. -/
def initialManagerState (clientType : String) (connection : Option DeltaConnection) :
    DeltaManager :=
  { clientType := clientType
    pending := []
    fetching := false
    updateHasBeenRequested := false
    updateSequenceNumberTimer := false
    readonly := true
    minSequenceNumber := 0
    lastQueuedSequenceNumber := none
    largestSequenceNumber := none
    baseSequenceNumber := 0
    inbound := { items := [], paused := true, systemPaused := false }
    outbound := { items := [], paused := true, systemPaused := false }
    inboundSignal := { items := [], paused := true, systemPaused := false }
    connection := connection
    clientSequenceNumber := 0
    closed := false
    handlerAttached := false
    contentCache := []
    errored := false }

/-- Source lines 364-380: system-level message attributes are promoted to a
top-level `data` field; `data` is read from `coreMessage.contents` and the
core's `contents` is then set to null. -/
def createOutboundMessage (type : MessageType) (coreMessage : IDocumentMessage) :
    OutboundMessage :=
  if isSystemType type then
    OutboundMessage.system { coreMessage with contents := none } coreMessage.contents
  else
    OutboundMessage.plain coreMessage

/-- Source lines 229-253 (`submit`): stamp a start trace, build the core
message with the next client sequence number and the current base sequence
number, apply system-type shaping, flip `readonly` off, stop any pending
sequence-number update (`stopSequenceNumberUpdate`), and push onto the
outbound queue.  `now` stands for `Date.now()`. -/
def submit (now : Nat) (s : DeltaManager) (type : MessageType)
    (contents : Option String) : DeltaManager × OutboundMessage :=
  let traces : List ITrace :=
    [{ action := "start", service := s.clientType, timestamp := now }]
  let csn := s.clientSequenceNumber + 1
  let coreMessage : IDocumentMessage :=
    { clientSequenceNumber := csn
      contents := contents
      referenceSequenceNumber := s.baseSequenceNumber
      traces := traces
      type := type }
  let message := createOutboundMessage type coreMessage
  ({ s with
      clientSequenceNumber := csn
      readonly := false
      updateHasBeenRequested := false
      updateSequenceNumberTimer := false
      outbound := pushQ s.outbound message },
   message)

/-- Source lines 255-257 (`submitSignal`): `this.connection!.submitSignal(content)`
dereferences the connection unconditionally; with no connection the non-null
assertion fails at runtime with a TypeError. -/
def submitSignal (s : DeltaManager) (_content : String) : Except String Unit :=
  match s.connection with
  | some _ => Except.ok ()
  | none => Except.error ("TypeError: this.connection is undefined")

/-- Source lines 336-339 (`enableReadonlyMode`): stop the sequence-number
update and set the readonly flag. -/
def enableReadonlyMode (s : DeltaManager) : DeltaManager :=
  { s with
      readonly := true
      updateHasBeenRequested := false
      updateSequenceNumberTimer := false }

/-- Source lines 341-343 (`disableReadonlyMode`). -/
def disableReadonlyMode (s : DeltaManager) : DeltaManager :=
  { s with readonly := false }

/-- Source lines 654-668 (`fetchMissingDeltas`): exit early if already
fetching (telemetry only); otherwise set the `fetching` flag and start
`getDeltas` (recorded as a `fetchStarted` effect — its resolution is a
separate asynchronous event).  The `fetching` flag is reset only in the
success continuation of `getDeltas`. -/
def fetchMissingDeltas (s : DeltaManager) (fromSeq : Nat) (toSeq : Option Nat) :
    DeltaManager × List Effect :=
  if s.fetching then
    (s, [Effect.telemetry ("fetchMissingDeltasAlreadyFetching")])
  else
    ({ s with fetching := true }, [Effect.fetchStarted fromSeq toSeq])

/-- Source lines 634-649 (`handleOutOfOrderMessage`): a message at or below
`lastQueuedSequenceNumber` is logged as a duplicate and dropped; otherwise it
is appended to `pending` and, when `lastQueuedSequenceNumber` is defined, a
missing-delta fetch is triggered. -/
def handleOutOfOrderMessage (s : DeltaManager) (message : ISequencedDocumentMessage) :
    DeltaManager × List Effect :=
  match s.lastQueuedSequenceNumber with
  | some lastQueued =>
    if message.sequenceNumber ≤ lastQueued then
      (s, [Effect.telemetry ("DuplicateMessage")])
    else
      fetchMissingDeltas { s with pending := s.pending ++ [message] }
        lastQueued (some message.sequenceNumber)
  | none =>
    ({ s with pending := s.pending ++ [message] }, [])

/-- Source lines 568-582, loop body of `enqueueMessages`: update
`largestSequenceNumber` (when defined); a message whose sequence number is
not `lastQueuedSequenceNumber + 1` goes to `handleOutOfOrderMessage`,
otherwise it advances `lastQueuedSequenceNumber` and is pushed onto the
inbound queue.  (When `lastQueuedSequenceNumber` is undefined the guard is
false and the message is admitted.) -/
def enqueueOne (s : DeltaManager) (message : ISequencedDocumentMessage) :
    DeltaManager × List Effect :=
  let s1 : DeltaManager :=
    { s with largestSequenceNumber :=
        s.largestSequenceNumber.map (fun l => max l message.sequenceNumber) }
  match s.lastQueuedSequenceNumber with
  | some lastQueued =>
    if message.sequenceNumber ≠ lastQueued + 1 then
      handleOutOfOrderMessage s1 message
    else
      ({ s1 with
          lastQueuedSequenceNumber := some message.sequenceNumber
          inbound := pushQ s1.inbound message }, [])
  | none =>
    ({ s1 with
        lastQueuedSequenceNumber := some message.sequenceNumber
        inbound := pushQ s1.inbound message }, [])

/-- Source lines 568-582 (`enqueueMessages`): fold of the loop body over the
arriving messages, in arrival order. -/
def enqueueMessages (s : DeltaManager) :
    List ISequencedDocumentMessage → DeltaManager × List Effect
  | [] => (s, [])
  | m :: rest =>
    let r1 := enqueueOne s m
    let r2 := enqueueMessages r1.1 rest
    (r2.1, r1.2 ++ r2.2)

/-- Source lines 733-765 (`updateSequenceNumber`): readonly clients exit
immediately; a `Propose` is acknowledged with an immediate `NoOp` carrying
`ImmediateNoOpResponse`; otherwise, if the 100 ms timer is already armed the
request is marked, else the timer is armed (its firing is a separate
asynchronous step not needed by the claims — in readonly mode it is never
armed). -/
def updateSequenceNumber (now : Nat) (s : DeltaManager) (type : MessageType) :
    DeltaManager × List Effect :=
  if s.readonly then
    (s, [])
  else if type = MessageType.Propose then
    let r := submit now s MessageType.NoOp (some ImmediateNoOpResponse)
    (r.1, [Effect.submitPushed r.2])
  else if s.updateSequenceNumberTimer then
    ({ s with updateHasBeenRequested := true }, [])
  else
    ({ s with updateSequenceNumberTimer := true }, [Effect.ackTimerArmed])

/-- Source lines 584-629 (`processMessage`): assert the message is the direct
successor of `baseSequenceNumber` (a violation throws, which surfaces on the
queue error channel — modelled by the `errored` flag); decode string contents
(the identity on the opaque payloads of this model); call `handler.prepare`;
append an end trace when traces are present; advance `minSequenceNumber` and
`baseSequenceNumber`; call `handler.process`; schedule a
reference-sequence-number ack for `Operation`/`Propose`; return
`handler.postProcess`. -/
def processMessage (now : Nat) (s : DeltaManager) (message : ISequencedDocumentMessage) :
    DeltaManager × List Effect :=
  if message.sequenceNumber ≠ s.baseSequenceNumber + 1 then
    ({ s with errored := true }, [Effect.assertionFailed message.sequenceNumber])
  else
    -- the end-trace append of lines 599-605 mutates only `message.traces`,
    -- which nothing downstream of the handler reads in this model
    let s1 :=
      { s with
          minSequenceNumber := message.minimumSequenceNumber
          baseSequenceNumber := message.sequenceNumber }
    let r :=
      if message.type = MessageType.Operation ∨ message.type = MessageType.Propose then
        updateSequenceNumber now s1 message.type
      else
        (s1, [])
    (r.1,
     Effect.handlerPrepare message.sequenceNumber ::
       Effect.handlerProcess message.sequenceNumber ::
       r.2 ++ [Effect.handlerPostProcess message.sequenceNumber])

/-- Inbound worker loop (constructor lines 125-131 plus `processInboundOp`):
items are taken in order; a message with absent contents suspends the worker
in content reassembly (`handleOpContent` — modelled separately), leaving it
and its successors queued; a worker error (`assert`) halts the queue without
clearing it. -/
def drainAux (now : Nat) :
    List ISequencedDocumentMessage → DeltaManager → List Effect →
    DeltaManager × List Effect
  | [], s, acc => (s, acc)
  | m :: rest, s, acc =>
    match m.contents with
    | none =>
      ({ s with inbound := { s.inbound with items := m :: rest } }, acc)
    | some _ =>
      let r := processMessage now s m
      if r.1.errored then
        ({ r.1 with inbound := { r.1.inbound with items := rest } }, acc ++ r.2)
      else
        drainAux now rest r.1 (acc ++ r.2)

/-- The inbound queue drains only when neither pause flag is set and no
worker error has halted it (spec §4.1). -/
def drainInbound (now : Nat) (s : DeltaManager) : DeltaManager × List Effect :=
  if s.inbound.paused ∨ s.inbound.systemPaused ∨ s.errored then
    (s, [])
  else
    drainAux now s.inbound.items { s with inbound := { s.inbound with items := [] } } []

/-- Stable sort of `pending` by sequence number — `this.pending.sort((a, b) =>
a.sequenceNumber - b.sequenceNumber)` (source line 725). -/
def insertBySeq (m : ISequencedDocumentMessage) :
    List ISequencedDocumentMessage → List ISequencedDocumentMessage
  | [] => [m]
  | x :: xs =>
    if x.sequenceNumber ≤ m.sequenceNumber then x :: insertBySeq m xs
    else m :: x :: xs

def sortBySeq : List ISequencedDocumentMessage → List ISequencedDocumentMessage
  | [] => []
  | x :: xs => insertBySeq x (sortBySeq xs)

/-- Source lines 711-728 (`catchUp`): log, feed the fetched messages through
the enqueue path, then sort `pending`, swap it with an empty buffer, and feed
the sorted pending through the enqueue path. -/
def catchUp (s : DeltaManager) (messages : List ISequencedDocumentMessage) :
    DeltaManager × List Effect :=
  let r1 := enqueueMessages s messages
  let pendingSorted := sortBySeq r1.1.pending
  let r2 := enqueueMessages { r1.1 with pending := [] } pendingSorted
  (r2.1, Effect.telemetry ("CatchUp") :: r1.2 ++ r2.2)

/-- Source lines 187-203 (`attachOpHandler`): anchor all four sequence
numbers at `sequenceNumber`, install the handler, and when `resume` holds,
system-resume both inbound queues and trigger
`fetchMissingDeltas("DocumentOpen", sequenceNumber)`. -/
def attachOpHandler (s : DeltaManager) (sequenceNumber : Nat) (resume : Bool) :
    DeltaManager × List Effect :=
  let s :=
    { s with
        baseSequenceNumber := sequenceNumber
        minSequenceNumber := sequenceNumber
        lastQueuedSequenceNumber := some sequenceNumber
        largestSequenceNumber := some sequenceNumber
        handlerAttached := true }
  if resume then
    let s :=
      { s with
          inbound := systemResumeQ s.inbound
          inboundSignal := systemResumeQ s.inboundSignal }
    fetchMissingDeltas s sequenceNumber none
  else
    (s, [])

/-- Source lines 348-358 (`close`): set `closed`, stop the sequence-number
update timer, close the connection if present, and clear all three queues.
`clear` discards items only — no pause flag is touched — and
`removeAllListeners` affects the manager's own emitter, not the queues. -/
def close (s : DeltaManager) : DeltaManager :=
  { s with
      closed := true
      updateHasBeenRequested := false
      updateSequenceNumberTimer := false
      connection := s.connection.map (fun c => { c with closed := true })
      inbound := clearQ s.inbound
      outbound := clearQ s.outbound
      inboundSignal := clearQ s.inboundSignal }

/-- Source lines 439-452, the connection's `disconnect` handler: system-pause
and clear the outbound queue, emit `"disconnect"(false)`; non-browser clients
additionally pause and clear both inbound queues, browser clients call
`connectCore("Reconnecting on disconnect", InitialReconnectDelay)`. -/
def onConnectionDisconnect (s : DeltaManager) : DeltaManager × List Effect :=
  let s := { s with outbound := clearQ (systemPauseQ s.outbound) }
  if s.clientType = Browser then
    (s, [Effect.emitDisconnect false, Effect.connectCoreCalled InitialReconnectDelay])
  else
    ({ s with
        inbound := clearQ (systemPauseQ s.inbound)
        inboundSignal := clearQ (systemPauseQ s.inboundSignal) },
     [Effect.emitDisconnect false])

/-- Source lines 470-478, the `connectCore` failure path: the delay parameter
of the n-th attempt; on failure the wait is `min(delay, MaxReconnectDelay)`
and the next attempt is scheduled with twice that wait. -/
def reconnectDelayParam : Nat → Nat
  | 0 => InitialReconnectDelay
  | n + 1 => (min (reconnectDelayParam n) MaxReconnectDelay) * 2

/-- The wait inserted before reconnection attempt `n + 1`. -/
def reconnectWait (n : Nat) : Nat :=
  min (reconnectDelayParam n) MaxReconnectDelay

/- ### getDeltas (source lines 259-334) -/

structure GetDeltasResult where
  deltas : List ISequencedDocumentMessage
  calls : List (Nat × Nat)
  delays : List Nat
deriving DecidableEq, Repr

/-- Retry loop of `getDeltas`.  `store callIdx fromSeq fetchTo` is the
delta-storage request for the `callIdx`-th call; `none` models a thrown
exception (then `deltasRetrievedLast` stays 0 and the catch path is taken).
Each iteration requests `[fromSeq, min(fromSeq + MaxBatchDeltas, to)]`,
terminates when `to` is undefined and the batch fell short of the window or
when `to = lastFetch + 1`, and otherwise sleeps
`min(MaxFetchDelay, if retry ≠ 0 then MissingFetchDelay * 2 ^ retry else 0)`
where `retry` was incremented on an empty batch and reset on a non-empty one
(source lines 316-319).  The recorded `calls` are the `(from, fetchTo)`
windows and `delays` the sleeps between calls.  `fuel` bounds the unbounded
source loop; exhaustion returns `none` (the promise never resolved within
`fuel` iterations). -/
def getDeltasLoop (store : Nat → Nat → Nat → Option (List ISequencedDocumentMessage))
    (toOpt : Option Nat) :
    Nat → Nat → Nat → List ISequencedDocumentMessage → List (Nat × Nat) → List Nat →
    Option GetDeltasResult
  | 0, _, _, _, _, _ => none
  | fuel + 1, fromSeq, retry, allDeltas, calls, delays =>
    let maxFetchTo := fromSeq + MaxBatchDeltas
    let fetchTo :=
      match toOpt with
      | none => maxFetchTo
      | some t => min maxFetchTo t
    match store calls.length fromSeq fetchTo with
    | some deltas =>
      let allDeltas := allDeltas ++ deltas
      let deltasRetrievedLast := deltas.length
      let lastFetch :=
        match deltas.getLast? with
        | some d => d.sequenceNumber
        | none => fromSeq
      if (toOpt = none ∧ maxFetchTo ≠ lastFetch + 1) ∨ toOpt = some (lastFetch + 1) then
        some { deltas := allDeltas, calls := calls ++ [(fromSeq, fetchTo)], delays := delays }
      else
        let retry := if deltasRetrievedLast = 0 then retry + 1 else 0
        let delay :=
          min MaxFetchDelay (if retry ≠ 0 then MissingFetchDelay * 2 ^ retry else 0)
        getDeltasLoop store toOpt fuel lastFetch retry allDeltas
          (calls ++ [(fromSeq, fetchTo)]) (delays ++ [delay])
    | none =>
      let retry := retry + 1
      let delay := min MaxFetchDelay (MissingFetchDelay * 2 ^ retry)
      getDeltasLoop store toOpt fuel fromSeq retry allDeltas
        (calls ++ [(fromSeq, fetchTo)]) (delays ++ [delay])

/-- Source lines 259-334 (`getDeltas`): when the manager is closed the call
logs and short-circuits to `[]`; otherwise the retry loop runs from
`fromInitial` with `retry = 0`. -/
def getDeltas (closed : Bool)
    (store : Nat → Nat → Nat → Option (List ISequencedDocumentMessage))
    (fromInitial : Nat) (toOpt : Option Nat) (fuel : Nat) : Option GetDeltasResult :=
  if closed then
    some { deltas := [], calls := [], delays := [] }
  else
    getDeltasLoop store toOpt fuel fromInitial 0 [] [] []

/- ### Asynchronous events delivered to the manager -/

/-- Resolution points of the single-threaded cooperative schedule:
`opReceived` is the connection's `op` event (lines 402-410), `fetchResolved`
is the settling of the `getDeltas` promise started by `fetchMissingDeltas`
(lines 663-667 — note the `.then` installs only a success continuation), and
`closeCalled` is a `close()` call. -/
inductive DMEvent where
  | opReceived (messages : List ISequencedDocumentMessage)
  | fetchResolved (outcome : Except String (List ISequencedDocumentMessage))
  | closeCalled
deriving Repr

def stepEvent (now : Nat) (s : DeltaManager) : DMEvent → DeltaManager × List Effect
  | DMEvent.opReceived messages =>
    -- the op handler enqueues only when `this.handler` is set (line 403)
    if s.handlerAttached then
      let r1 := enqueueMessages s messages
      let r2 := drainInbound now r1.1
      (r2.1, r1.2 ++ r2.2)
    else
      (s, [])
  | DMEvent.fetchResolved (Except.ok messages) =>
    -- success continuation (lines 664-667): reset `fetching`, then `catchUp`
    let r1 := catchUp { s with fetching := false } messages
    let r2 := drainInbound now r1.1
    (r2.1, r1.2 ++ r2.2)
  | DMEvent.fetchResolved (Except.error _) =>
    -- no rejection continuation is installed: the state is untouched and the
    -- `fetching` flag keeps whatever value it had
    (s, [])
  | DMEvent.closeCalled =>
    (close s, [])

def runEvents (now : Nat) (s : DeltaManager) : List DMEvent → DeltaManager × List Effect
  | [] => (s, [])
  | e :: rest =>
    let r1 := stepEvent now s e
    let r2 := runEvents now r1.1 rest
    (r2.1, r1.2 ++ r2.2)

/- ### Content reassembly: `waitForContent` (source lines 670-690) -/

/-- Modelled from the spec: `ContentCache.set` (`contentCache.ts` is not
among the given sources).  Spec §4.2: a bounded queue with per-client peek;
inserts beyond the capacity (default 10) evict the oldest entry; every `set`
fires `"content"` with the inserted `clientId`. -/
def cacheSet (cache : List IContentMessage) (c : IContentMessage) :
    List IContentMessage :=
  let cache := cache ++ [c]
  if DefaultContentBufferSize < cache.length then cache.drop 1 else cache

/-- Modelled from the spec: `ContentCache.peek(clientId)` returns the oldest
retained content for that client without removing it. -/
def cachePeek (cache : List IContentMessage) (clientId : String) :
    Option IContentMessage :=
  (cache.filter (fun c => c.clientId = clientId)).head?

/-- Modelled from the spec: `ContentCache.get(clientId)` removes (and
returns) the oldest retained content for that client. -/
def cacheRemoveFirst : List IContentMessage → String → List IContentMessage
  | [], _ => []
  | c :: rest, clientId =>
    if c.clientId = clientId then rest else c :: cacheRemoveFirst rest clientId

/-- State of one `waitForContent(clientId, clientSeqNumber, seqNumber)` call:
whether `lateContentHandler` is still subscribed to the cache's `"content"`
event, the cache contents, and the value the returned promise has resolved
with (`none` while still pending). -/
structure WaitForContentRun where
  listenerRegistered : Bool
  cache : List IContentMessage
  resolved : Option IContentMessage
deriving DecidableEq, Repr

/-- The two ways the wait can make progress: a content message arrives on the
connection's `op-content` channel (`contentCache.set`, which fires the
`"content"` event), or the parallel storage `fetchContent` promise resolves. -/
inductive ContentEvent where
  | opContentArrives (c : IContentMessage)
  | fetchContentResolves (c : IContentMessage)
deriving DecidableEq, Repr

/-- Source lines 674-683 (`lateContentHandler`), invoked by the cache's
`"content"` event: on a clientId match whose peeked entry carries the awaited
client sequence number, the handler deregisters itself, pops the entry with
`contentCache.get`, and returns it — but it runs as an `EventEmitter`
listener, whose return value `emit` discards, so `resolved` is NOT set. -/
def lateContentHandlerFires (clientId : String) (clientSeqNumber : Nat)
    (st : WaitForContentRun) (clId : String) : WaitForContentRun :=
  if clientId = clId then
    match cachePeek st.cache clId with
    | some lateContent =>
      if lateContent.clientSequenceNumber = clientSeqNumber then
        { listenerRegistered := false
          cache := cacheRemoveFirst st.cache clId
          resolved := st.resolved }
      else
        st
    | none => st
  else
    st

/-- One asynchronous step of a pending `waitForContent` call.  An arriving
`op-content` message is inserted into the cache (line 414), firing the
`"content"` listener if still registered; the resolution of the
`await this.fetchContent(...)` on line 686 deregisters the listener and
resolves the promise with the FETCHED content (line 689). -/
def waitStep (clientId : String) (clientSeqNumber : Nat)
    (st : WaitForContentRun) : ContentEvent → WaitForContentRun
  | ContentEvent.opContentArrives c =>
    let st1 := { st with cache := cacheSet st.cache c }
    if st1.listenerRegistered then
      lateContentHandlerFires clientId clientSeqNumber st1 c.clientId
    else
      st1
  | ContentEvent.fetchContentResolves c =>
    { st with listenerRegistered := false, resolved := some c }

/-- `waitForContent` entry state (lines 685-686): the listener is registered
and the storage fetch is started; the promise is pending. -/
def waitForContentRun (clientId : String) (clientSeqNumber : Nat)
    (cache0 : List IContentMessage) (events : List ContentEvent) : WaitForContentRun :=
  events.foldl (waitStep clientId clientSeqNumber)
    { listenerRegistered := true, cache := cache0, resolved := none }

/- ### Concrete scenario inputs -/

def mkMsg (seq : Nat) : ISequencedDocumentMessage :=
  { sequenceNumber := seq
    minimumSequenceNumber := 0
    clientId := "A"
    clientSequenceNumber := seq
    type := MessageType.Operation
    contents := some ("op-contents")
    traces := [] }

/-- Manager with handler attached at sequence number 0, queues resumed by the
user, and the `DocumentOpen` fetch already resolved empty (storage held
nothing past the anchor), so `fetching = false`. -/
def c2Start : DeltaManager :=
  let s := initialManagerState Browser none
  let s :=
    { s with
        inbound := resumeQ s.inbound
        outbound := resumeQ s.outbound
        inboundSignal := resumeQ s.inboundSignal }
  let s := (attachOpHandler s 0 true).1
  (stepEvent 0 s (DMEvent.fetchResolved (Except.ok []))).1

/-- Delta storage answering the gap fetch `(0, 3)` with the missing range. -/
def c2Store (callIdx _fromSeq _fetchTo : Nat) :
    Option (List ISequencedDocumentMessage) :=
  some (if callIdx = 0 then [mkMsg 1, mkMsg 2] else [])

def c2Backfill : List ISequencedDocumentMessage :=
  match getDeltas false c2Store 0 (some 3) 10 with
  | some r => r.deltas
  | none => []

def c2Run : DeltaManager × List Effect :=
  runEvents 0 c2Start
    [DMEvent.opReceived [mkMsg 3, mkMsg 1, mkMsg 2],
     DMEvent.fetchResolved (Except.ok c2Backfill)]

/-- Storage for scenario S5: three empty responses, then two messages. -/
def c4Store (callIdx _fromSeq _fetchTo : Nat) :
    Option (List ISequencedDocumentMessage) :=
  if callIdx < 3 then some [] else some [mkMsg 1, mkMsg 2]

def c4Run : Option GetDeltasResult :=
  getDeltas false c4Store 0 (some 3) 10

/-- Storage whose first request throws and whose second succeeds. -/
def c4ThrowStore (callIdx _fromSeq _fetchTo : Nat) :
    Option (List ISequencedDocumentMessage) :=
  if callIdx = 0 then none else some [mkMsg 1, mkMsg 2]

def c4ThrowRun : Option GetDeltasResult :=
  getDeltas false c4ThrowStore 0 (some 3) 10

/-- Storage for the retry-reset run: an empty response (retry becomes 1),
then a non-empty batch short of `to` (retry resets, delay 0), then the final
batch. -/
def c4ResetStore (callIdx _fromSeq _fetchTo : Nat) :
    Option (List ISequencedDocumentMessage) :=
  if callIdx = 0 then some []
  else if callIdx = 1 then some [mkMsg 1]
  else some [mkMsg 4]

def c4ResetRun : Option GetDeltasResult :=
  getDeltas false c4ResetStore 0 (some 5) 10

/-- Manager attached at 0 with a gap fetch in flight (`fetching = true`) and
a live connection — the state in which `close()` is called in the C7 run. -/
def c7Start : DeltaManager :=
  let s := initialManagerState Browser (some { clientId := "A", closed := false })
  let s :=
    { s with
        inbound := resumeQ s.inbound
        outbound := resumeQ s.outbound
        inboundSignal := resumeQ s.inboundSignal }
  (attachOpHandler s 0 true).1

def c7Run : DeltaManager × List Effect :=
  runEvents 0 c7Start
    [DMEvent.closeCalled, DMEvent.fetchResolved (Except.ok [mkMsg 1])]

def c3CachedContent : IContentMessage :=
  { clientId := "C", clientSequenceNumber := 7, contents := "cached-payload" }

def c3FetchedContent : IContentMessage :=
  { clientId := "C", clientSequenceNumber := 7, contents := "fetched-payload" }

/-- State of the wait after the matching content arrived on the `op-content`
channel, before the storage fetch has completed. -/
def c3AfterContent : WaitForContentRun :=
  waitForContentRun "C" 7 [] [ContentEvent.opContentArrives c3CachedContent]

/-- State of the wait after the storage fetch subsequently resolves. -/
def c3Final : WaitForContentRun :=
  waitForContentRun "C" 7 []
    [ContentEvent.opContentArrives c3CachedContent,
     ContentEvent.fetchContentResolves c3FetchedContent]

/- ### Claim theorems -/

/- Branch computations of `enqueueOne` used by claim C1. -/

theorem enqueueOne_admitted (s : DeltaManager) (m : ISequencedDocumentMessage) (N : Nat)
    (h : s.lastQueuedSequenceNumber = some N) (hseq : m.sequenceNumber = N + 1) :
    enqueueOne s m =
      ({ s with
          largestSequenceNumber := s.largestSequenceNumber.map (fun l => max l m.sequenceNumber)
          lastQueuedSequenceNumber := some m.sequenceNumber
          inbound := pushQ s.inbound m }, []) := by
  simp [enqueueOne, h, hseq]

theorem enqueueOne_dup (s : DeltaManager) (m : ISequencedDocumentMessage) (N : Nat)
    (h : s.lastQueuedSequenceNumber = some N) (hle : m.sequenceNumber ≤ N) :
    enqueueOne s m =
      ({ s with
          largestSequenceNumber := s.largestSequenceNumber.map (fun l => max l m.sequenceNumber) },
       [Effect.telemetry ("DuplicateMessage")]) := by
  have hne : m.sequenceNumber ≠ N + 1 := by omega
  simp [enqueueOne, handleOutOfOrderMessage, h, hne, hle]

theorem fetchMissingDeltas_busy (t : DeltaManager) (f : Nat) (toSeq : Option Nat)
    (hf : t.fetching = true) :
    fetchMissingDeltas t f toSeq =
      (t, [Effect.telemetry ("fetchMissingDeltasAlreadyFetching")]) := by
  simp [fetchMissingDeltas, hf]

theorem fetchMissingDeltas_idle (t : DeltaManager) (f : Nat) (toSeq : Option Nat)
    (hf : t.fetching = false) :
    fetchMissingDeltas t f toSeq =
      ({ t with fetching := true }, [Effect.fetchStarted f toSeq]) := by
  simp [fetchMissingDeltas, hf]

theorem enqueueOne_gap (s : DeltaManager) (m : ISequencedDocumentMessage) (N : Nat)
    (h : s.lastQueuedSequenceNumber = some N) (hgt : N + 1 < m.sequenceNumber) :
    enqueueOne s m =
      fetchMissingDeltas
        { s with
            largestSequenceNumber := s.largestSequenceNumber.map (fun l => max l m.sequenceNumber)
            pending := s.pending ++ [m] }
        N (some m.sequenceNumber) := by
  have hne : m.sequenceNumber ≠ N + 1 := by omega
  have hnle : ¬ m.sequenceNumber ≤ N := by omega
  simp [enqueueOne, handleOutOfOrderMessage, h, hne, hnle]

/-- Claim C1: gap-free admission.  When `lastQueuedSequenceNumber = N`, an
arriving message `m` is admitted to the inbound queue with
`lastQueuedSequenceNumber` advanced to `m.sequenceNumber` if and only if
`m.sequenceNumber = N + 1`; a message with a higher number is appended to the
`pending` buffer, triggering a missing-delta fetch (or only telemetry when a
fetch is already in flight); a message with `m.sequenceNumber ≤ N` is logged
as a duplicate and dropped with no state change other than
`largestSequenceNumber`. -/
theorem enqueueOne_gap_free_admission (s : DeltaManager)
    (m : ISequencedDocumentMessage) (N : Nat)
    (h : s.lastQueuedSequenceNumber = some N) :
    (((enqueueOne s m).1.inbound.items = s.inbound.items ++ [m] ∧
       (enqueueOne s m).1.lastQueuedSequenceNumber = some m.sequenceNumber) ↔
       m.sequenceNumber = N + 1) ∧
    (N + 1 < m.sequenceNumber →
       (enqueueOne s m).1.pending = s.pending ++ [m] ∧
       (s.fetching = false →
          (enqueueOne s m).1.fetching = true ∧
          (enqueueOne s m).2 = [Effect.fetchStarted N (some m.sequenceNumber)]) ∧
       (s.fetching = true →
          (enqueueOne s m).2 = [Effect.telemetry ("fetchMissingDeltasAlreadyFetching")])) ∧
    (m.sequenceNumber ≤ N →
       (enqueueOne s m).1 =
         { s with largestSequenceNumber :=
             s.largestSequenceNumber.map (fun l => max l m.sequenceNumber) } ∧
       (enqueueOne s m).2 = [Effect.telemetry ("DuplicateMessage")]) := by
  rcases Nat.lt_trichotomy m.sequenceNumber (N + 1) with hlt | heq | hgt
  · have hle : m.sequenceNumber ≤ N := by omega
    rw [enqueueOne_dup s m N h hle]
    refine ⟨?_, fun hgt => absurd hgt (by omega), fun _ => ⟨rfl, rfl⟩⟩
    constructor
    · rintro ⟨hitems, -⟩
      exact absurd (congrArg List.length hitems) (by simp)
    · intro hseq
      exact absurd hseq (by omega)
  · rw [enqueueOne_admitted s m N h heq]
    exact ⟨by simp [pushQ, heq], fun hgt => absurd heq (by omega),
      fun hle => absurd heq (by omega)⟩
  · have hcomp := enqueueOne_gap s m N h hgt
    by_cases hf : s.fetching = true
    · have hbusy : enqueueOne s m =
          ({ s with
              largestSequenceNumber :=
                s.largestSequenceNumber.map (fun l => max l m.sequenceNumber)
              pending := s.pending ++ [m] },
           [Effect.telemetry ("fetchMissingDeltasAlreadyFetching")]) := by
        rw [hcomp]
        exact fetchMissingDeltas_busy _ _ _ hf
      rw [hbusy]
      refine ⟨?_, fun _ => ⟨rfl, fun hff => absurd hff (by simp [hf]), fun _ => rfl⟩,
        fun hle => absurd hle (by omega)⟩
      constructor
      · rintro ⟨hitems, -⟩
        exact absurd (congrArg List.length hitems) (by simp)
      · intro hseq
        exact absurd hseq (by omega)
    · have hff : s.fetching = false := by
        cases hb : s.fetching
        · rfl
        · exact absurd hb hf
      have hidle : enqueueOne s m =
          ({ s with
              largestSequenceNumber :=
                s.largestSequenceNumber.map (fun l => max l m.sequenceNumber)
              pending := s.pending ++ [m]
              fetching := true },
           [Effect.fetchStarted N (some m.sequenceNumber)]) := by
        rw [hcomp]
        exact fetchMissingDeltas_idle _ _ _ hff
      rw [hidle]
      refine ⟨?_, fun _ => ⟨rfl, fun _ => ⟨rfl, rfl⟩, fun htt => absurd htt (by simp [hff])⟩,
        fun hle => absurd hle (by omega)⟩
      constructor
      · rintro ⟨hitems, -⟩
        exact absurd (congrArg List.length hitems) (by simp)
      · intro hseq
        exact absurd hseq (by omega)

/-- Witness for claim C1 at a concrete state with
`lastQueuedSequenceNumber = some 5` and the arriving message `mkMsg 6`. -/
theorem enqueueOne_gap_free_admission_witness :
    ((enqueueOne
        { initialManagerState Browser none with
            lastQueuedSequenceNumber := some 5
            largestSequenceNumber := some 5
            baseSequenceNumber := 5
            handlerAttached := true } (mkMsg 6)).1.inbound.items =
        ({ initialManagerState Browser none with
            lastQueuedSequenceNumber := some 5
            largestSequenceNumber := some 5
            baseSequenceNumber := 5
            handlerAttached := true } : DeltaManager).inbound.items ++ [mkMsg 6] ∧
      (enqueueOne
        { initialManagerState Browser none with
            lastQueuedSequenceNumber := some 5
            largestSequenceNumber := some 5
            baseSequenceNumber := 5
            handlerAttached := true } (mkMsg 6)).1.lastQueuedSequenceNumber =
        some (mkMsg 6).sequenceNumber) ↔
      (mkMsg 6).sequenceNumber = 5 + 1 :=
  (enqueueOne_gap_free_admission
    { initialManagerState Browser none with
        lastQueuedSequenceNumber := some 5
        largestSequenceNumber := some 5
        baseSequenceNumber := 5
        handlerAttached := true } (mkMsg 6) 5 rfl).1

/-- Claim C2: reordering tolerance.  From a handler attached at base 0,
delivering messages `[3, 1, 2]` through the connection's `op` event with
storage backfill answering the gap fetch results in the handler processing
exactly `[1, 2, 3]` in that order, with exactly one storage fetch issued
(window `(0, 3)`, answered in a single storage call) and no message processed
twice. -/
theorem reordering_tolerance :
    processedSeqs c2Run.2 = [1, 2, 3] ∧
    fetchStarts c2Run.2 = [(0, some 3)] ∧
    getDeltas false c2Store 0 (some 3) 10 =
      some { deltas := [mkMsg 1, mkMsg 2], calls := [(0, 3)], delays := [] } := by
  decide

/-- Claim C3 (code bug), evaluated at the failing input: with an empty cache,
`waitForContent("C", 7, _)` registers the `"content"` listener and starts the
storage fetch; when the matching content then arrives on the `op-content`
channel BEFORE the fetch completes, the promise is still unresolved
(`resolved = none`) — the listener's return value is discarded by the
`EventEmitter` — and the cached entry has been popped and dropped; the
promise resolves only when the storage fetch completes, and with the fetched
payload, not the cached one. -/
theorem waitForContent_ignores_late_content :
    c3AfterContent =
      { listenerRegistered := false, cache := [], resolved := none } ∧
    c3Final.resolved = some c3FetchedContent := by
  decide

/-- Claim C4, counterexample: in scenario S5 (storage returns `[]` three
times, then two messages) the elapsed delays between the four calls are
`[200, 400, 800]` ms, not `[100, 200, 400]` as claimed — the delay formula is
applied to the already-incremented retry counter. -/
theorem getDeltas_retry_delays_counterexample :
    c4Run.map GetDeltasResult.delays = some [200, 400, 800] ∧
    c4Run.map GetDeltasResult.delays ≠ some [100, 200, 400] := by
  decide

/-- Claim C4, amended: for EVERY `getDeltas` retry-loop step — any storage
oracle, window, and loop state — a throwing request continues the loop with
the retry counter incremented and a recorded delay of
`min(MaxFetchDelay, MissingFetchDelay * 2 ^ retry)` computed with the
already-incremented counter; an empty response that does not terminate the
loop (which requires a defined upper bound) does the same; and a non-empty
response that does not terminate the loop resets the retry counter to 0 and
records a delay of 0.  Consequently, in scenario S5 (storage returns `[]`
three times then two messages) the elapsed delays between the four calls are
`200, 400, 800` ms (not 100, 200, 400); a first throwing request likewise
delays 200 ms; and after a non-empty continuing batch the recorded delay
drops back to 0. -/
theorem getDeltas_retry_delays_amended :
    (∀ (store : Nat → Nat → Nat → Option (List ISequencedDocumentMessage))
       (toOpt : Option Nat) (fuel fromSeq retry fetchTo : Nat)
       (acc : List ISequencedDocumentMessage) (calls : List (Nat × Nat))
       (delays : List Nat),
       fetchTo = toOpt.elim (fromSeq + MaxBatchDeltas)
         (fun t => min (fromSeq + MaxBatchDeltas) t) →
       store calls.length fromSeq fetchTo = none →
       getDeltasLoop store toOpt (fuel + 1) fromSeq retry acc calls delays =
         getDeltasLoop store toOpt fuel fromSeq (retry + 1) acc
           (calls ++ [(fromSeq, fetchTo)])
           (delays ++ [min MaxFetchDelay (MissingFetchDelay * 2 ^ (retry + 1))])) ∧
    (∀ (store : Nat → Nat → Nat → Option (List ISequencedDocumentMessage))
       (toOpt : Option Nat) (fuel fromSeq retry fetchTo : Nat)
       (acc : List ISequencedDocumentMessage) (calls : List (Nat × Nat))
       (delays : List Nat),
       fetchTo = toOpt.elim (fromSeq + MaxBatchDeltas)
         (fun t => min (fromSeq + MaxBatchDeltas) t) →
       store calls.length fromSeq fetchTo = some [] →
       ¬ ((toOpt = none ∧ fromSeq + MaxBatchDeltas ≠ fromSeq + 1) ∨
          toOpt = some (fromSeq + 1)) →
       getDeltasLoop store toOpt (fuel + 1) fromSeq retry acc calls delays =
         getDeltasLoop store toOpt fuel fromSeq (retry + 1) acc
           (calls ++ [(fromSeq, fetchTo)])
           (delays ++ [min MaxFetchDelay (MissingFetchDelay * 2 ^ (retry + 1))])) ∧
    (∀ (store : Nat → Nat → Nat → Option (List ISequencedDocumentMessage))
       (toOpt : Option Nat) (fuel fromSeq retry fetchTo : Nat)
       (acc : List ISequencedDocumentMessage) (calls : List (Nat × Nat))
       (delays : List Nat) (deltas : List ISequencedDocumentMessage)
       (hne : deltas ≠ []),
       fetchTo = toOpt.elim (fromSeq + MaxBatchDeltas)
         (fun t => min (fromSeq + MaxBatchDeltas) t) →
       store calls.length fromSeq fetchTo = some deltas →
       ¬ ((toOpt = none ∧
             fromSeq + MaxBatchDeltas ≠ (deltas.getLast hne).sequenceNumber + 1) ∨
          toOpt = some ((deltas.getLast hne).sequenceNumber + 1)) →
       getDeltasLoop store toOpt (fuel + 1) fromSeq retry acc calls delays =
         getDeltasLoop store toOpt fuel (deltas.getLast hne).sequenceNumber 0
           (acc ++ deltas) (calls ++ [(fromSeq, fetchTo)]) (delays ++ [0])) ∧
    c4Run =
      some { deltas := [mkMsg 1, mkMsg 2]
             calls := [(0, 3), (0, 3), (0, 3), (0, 3)]
             delays := [200, 400, 800] } ∧
    c4ThrowRun =
      some { deltas := [mkMsg 1, mkMsg 2]
             calls := [(0, 3), (0, 3)]
             delays := [200] } ∧
    c4ResetRun =
      some { deltas := [mkMsg 1, mkMsg 4]
             calls := [(0, 5), (0, 5), (1, 5)]
             delays := [200, 0] } := by
  refine ⟨?_, ?_, ?_, by decide, by decide, by decide⟩
  · intro store toOpt fuel fromSeq retry fetchTo acc calls delays hft hstore
    cases toOpt with
    | none =>
      simp only [Option.elim] at hft
      subst hft
      simp only [getDeltasLoop]
      simp [hstore]
    | some t =>
      simp only [Option.elim] at hft
      subst hft
      simp only [getDeltasLoop]
      simp [hstore]
  · intro store toOpt fuel fromSeq retry fetchTo acc calls delays hft hstore hterm
    cases toOpt with
    | none =>
      exact absurd (Or.inl ⟨rfl, by simp only [MaxBatchDeltas]; omega⟩) hterm
    | some t =>
      simp only [Option.elim] at hft
      subst hft
      have ht : t ≠ fromSeq + 1 := fun hEq => hterm (Or.inr (by rw [hEq]))
      simp only [getDeltasLoop]
      simp [hstore, ht]
  · intro store toOpt fuel fromSeq retry fetchTo acc calls delays deltas hne hft hstore hterm
    have hlast : deltas.getLast? = some (deltas.getLast hne) :=
      List.getLast?_eq_getLast deltas hne
    have hlen : deltas.length ≠ 0 := fun hl => hne (List.length_eq_zero.mp hl)
    cases toOpt with
    | none =>
      simp only [Option.elim] at hft
      subst hft
      have hEq : fromSeq + MaxBatchDeltas = (deltas.getLast hne).sequenceNumber + 1 := by
        by_contra hcon
        exact hterm (Or.inl ⟨rfl, hcon⟩)
      simp only [getDeltasLoop]
      simp only [hstore]
      simp [hlast, hlen, hEq]
    | some t =>
      simp only [Option.elim] at hft
      subst hft
      have ht : t ≠ (deltas.getLast hne).sequenceNumber + 1 :=
        fun hEq => hterm (Or.inr (by rw [hEq]))
      simp only [getDeltasLoop]
      simp [hstore, hlast, hlen, ht]

/-- Witness for claim C4 (amended) at the first S5 loop step: the empty
response at call 0 of `c4Store` continues the loop with retry 1 and a
recorded delay of 200 ms. -/
theorem getDeltas_retry_delays_amended_witness :
    getDeltasLoop c4Store (some 3) 10 0 0 [] [] [] =
      getDeltasLoop c4Store (some 3) 9 0 1 [] [(0, 3)] [200] :=
  getDeltas_retry_delays_amended.2.1 c4Store (some 3) 9 0 0 3 [] [] []
    (by decide) (by decide) (by decide)

/- Preservation lemmas for claim C5. -/

theorem submittedMessages_append (a b : List Effect) :
    submittedMessages (a ++ b) = submittedMessages a ++ submittedMessages b := by
  simp [submittedMessages]

theorem processMessage_readonly (now : Nat) (s : DeltaManager)
    (m : ISequencedDocumentMessage) (h : s.readonly = true) :
    (processMessage now s m).1.readonly = true ∧
    (processMessage now s m).1.updateSequenceNumberTimer = s.updateSequenceNumberTimer ∧
    submittedMessages (processMessage now s m).2 = [] := by
  by_cases hseq : m.sequenceNumber ≠ s.baseSequenceNumber + 1
  · simp [processMessage, hseq, h, submittedMessages]
  · by_cases htype : m.type = MessageType.Operation ∨ m.type = MessageType.Propose
    · simp [processMessage, updateSequenceNumber, hseq, htype, h, submittedMessages]
    · simp [processMessage, hseq, htype, h, submittedMessages]

theorem drainAux_readonly (now : Nat) :
    ∀ (msgs : List ISequencedDocumentMessage) (s : DeltaManager) (acc : List Effect),
      s.readonly = true →
      (drainAux now msgs s acc).1.readonly = true ∧
      (drainAux now msgs s acc).1.updateSequenceNumberTimer = s.updateSequenceNumberTimer ∧
      submittedMessages (drainAux now msgs s acc).2 = submittedMessages acc := by
  intro msgs
  induction msgs with
  | nil =>
    intro s acc h
    exact ⟨h, rfl, rfl⟩
  | cons m rest ih =>
    intro s acc h
    obtain ⟨hro, htimer, hsub⟩ := processMessage_readonly now s m h
    unfold drainAux
    cases hc : m.contents with
    | none => exact ⟨h, rfl, rfl⟩
    | some c =>
      simp only
      split
      · exact ⟨hro, htimer, by rw [submittedMessages_append, hsub, List.append_nil]⟩
      · obtain ⟨h1, h2, h3⟩ :=
          ih (processMessage now s m).1 (acc ++ (processMessage now s m).2) hro
        exact ⟨h1, by rw [h2, htimer],
          by rw [h3, submittedMessages_append, hsub, List.append_nil]⟩

/-- Claim C5: readonly suppresses acks.  After `enableReadonlyMode`,
processing any number of `Operation`/`Propose` messages through the inbound
worker submits nothing to the outbound queue (in particular no `NoOp`
acknowledgement), the manager stays readonly, and the ack timer is never
armed. -/
theorem readonly_suppresses_ack (now : Nat) (s : DeltaManager)
    (msgs : List ISequencedDocumentMessage)
    (_htypes : ∀ m ∈ msgs,
      m.type = MessageType.Operation ∨ m.type = MessageType.Propose) :
    submittedMessages (drainAux now msgs (enableReadonlyMode s) []).2 = [] ∧
    (drainAux now msgs (enableReadonlyMode s) []).1.readonly = true ∧
    (drainAux now msgs (enableReadonlyMode s) []).1.updateSequenceNumberTimer = false := by
  obtain ⟨h1, h2, h3⟩ :=
    drainAux_readonly now msgs (enableReadonlyMode s) [] (by simp [enableReadonlyMode])
  refine ⟨by simpa [submittedMessages] using h3, h1, ?_⟩
  rw [h2]
  simp [enableReadonlyMode]

/-- Witness for claim C5: five `Operation` messages processed in readonly
mode produce no outbound submission. -/
theorem readonly_suppresses_ack_witness :
    submittedMessages
      (drainAux 0 [mkMsg 1, mkMsg 2, mkMsg 3, mkMsg 4, mkMsg 5]
        (enableReadonlyMode (initialManagerState Browser none)) []).2 = [] ∧
    (drainAux 0 [mkMsg 1, mkMsg 2, mkMsg 3, mkMsg 4, mkMsg 5]
      (enableReadonlyMode (initialManagerState Browser none)) []).1.readonly = true ∧
    (drainAux 0 [mkMsg 1, mkMsg 2, mkMsg 3, mkMsg 4, mkMsg 5]
      (enableReadonlyMode (initialManagerState Browser none))
        []).1.updateSequenceNumberTimer = false :=
  readonly_suppresses_ack 0 (initialManagerState Browser none)
    [mkMsg 1, mkMsg 2, mkMsg 3, mkMsg 4, mkMsg 5] (by decide)

/-- Claim C6, counterexample: `submit` of a system-type message with null
contents produces an envelope whose `data` field is null — `data` merely
receives the supplied `contents`, so `data ≠ null` fails when the caller
passes `null`. -/
theorem createOutboundMessage_null_data_counterexample :
    isSystemType MessageType.SystemOther = true ∧
    systemData
      (submit 0 (initialManagerState Browser none) MessageType.SystemOther none).2 =
      some none := by
  decide

/-- Claim C6, amended: for every outbound envelope built by
`submit(type, contents)` with `isSystemType(type)`, the result is an
`IDocumentSystemMessage` whose `contents` is null and whose `data` carries
the originally supplied `contents` (hence `data ≠ null` exactly when the
supplied contents was non-null). -/
theorem system_type_shaping_amended (now : Nat) (s : DeltaManager)
    (type : MessageType) (contents : Option String)
    (h : isSystemType type = true) :
    (submit now s type contents).2 =
      OutboundMessage.system
        { clientSequenceNumber := s.clientSequenceNumber + 1
          contents := none
          referenceSequenceNumber := s.baseSequenceNumber
          traces := [{ action := "start", service := s.clientType, timestamp := now }]
          type := type }
        contents := by
  simp [submit, createOutboundMessage, h]

/-- Witness for claim C6 (amended) at a system-type submit with non-null
contents. -/
theorem system_type_shaping_amended_witness :
    (submit 0 (initialManagerState Browser none) MessageType.SystemOther
        (some ("sys-payload"))).2 =
      OutboundMessage.system
        { clientSequenceNumber := (initialManagerState Browser none).clientSequenceNumber + 1
          contents := none
          referenceSequenceNumber := (initialManagerState Browser none).baseSequenceNumber
          traces := [{ action := "start"
                       service := (initialManagerState Browser none).clientType
                       timestamp := 0 }]
          type := MessageType.SystemOther }
        (some ("sys-payload")) :=
  system_type_shaping_amended 0 (initialManagerState Browser none)
    MessageType.SystemOther (some ("sys-payload")) rfl

/-- Claim C7, counterexample: `close()` clears the queues but does NOT pause
them (their pause flags are untouched), and a handler call IS observed after
`close()`: in `c7Run` the first event is `closeCalled` (which produces no
effects), yet the trace contains `handlerProcess 1` — the gap fetch that was
in flight at close time resolves afterwards, and its messages are enqueued
and processed because the cleared-but-unpaused inbound queue still drains. -/
theorem close_not_terminal_counterexample :
    (close c7Start).inbound.paused = false ∧
    (close c7Start).inbound.systemPaused = false ∧
    (close c7Start).outbound.paused = false ∧
    c7Run.2 =
      [Effect.telemetry ("CatchUp"), Effect.handlerPrepare 1,
       Effect.handlerProcess 1, Effect.handlerPostProcess 1] ∧
    processedSeqs c7Run.2 = [1] := by
  decide

/-- Claim C7, amended: `close()` clears all three queues, cancels the ack
timer, closes the connection when present, and makes any `getDeltas` call
entered afterwards short-circuit to `[]` with no storage request; the queues'
pause flags are not touched, and handler calls can still be observed after
`close()` when a fetch in flight at close time resolves with messages. -/
theorem close_clears_and_latches (s : DeltaManager)
    (store : Nat → Nat → Nat → Option (List ISequencedDocumentMessage))
    (fromInitial : Nat) (toOpt : Option Nat) (fuel : Nat) :
    (close s).inbound.items = [] ∧
    (close s).outbound.items = [] ∧
    (close s).inboundSignal.items = [] ∧
    (close s).updateSequenceNumberTimer = false ∧
    (close s).updateHasBeenRequested = false ∧
    (close s).closed = true ∧
    (close s).connection = s.connection.map (fun c => { c with closed := true }) ∧
    (close s).inbound.paused = s.inbound.paused ∧
    (close s).inbound.systemPaused = s.inbound.systemPaused ∧
    getDeltas true store fromInitial toOpt fuel =
      some { deltas := [], calls := [], delays := [] } :=
  ⟨rfl, rfl, rfl, rfl, rfl, rfl, rfl, rfl, rfl, rfl⟩

/- Closed form of the reconnect backoff, used by claim C8. -/

theorem reconnectWait_formula (n : Nat) :
    reconnectWait n = min (1000 * 2 ^ n) 8000 := by
  induction n with
  | zero => decide
  | succ n ih =>
    have hp : reconnectDelayParam (n + 1) = (min (1000 * 2 ^ n) 8000) * 2 := by
      rw [reconnectDelayParam]
      rw [show min (reconnectDelayParam n) MaxReconnectDelay = reconnectWait n from rfl, ih]
    have hpow : 1000 * 2 ^ (n + 1) = (1000 * 2 ^ n) * 2 := by ring
    rw [reconnectWait, hp, hpow, show MaxReconnectDelay = 8000 from rfl]
    generalize 1000 * 2 ^ n = x
    omega

/-- Claim C8: browser-client reconnect backoff.  For a `Browser`-category
client the connection's `disconnect` handler system-pauses and clears the
outbound queue, emits `"disconnect"(false)`, and calls `connectCore` with the
initial 1000 ms delay; on repeated connect failures the waits between
attempts are `min(1000 * 2 ^ n, 8000)`, i.e. `1000, 2000, 4000, 8000, 8000, …`
ms. -/
theorem browser_reconnect_backoff (s : DeltaManager) (h : s.clientType = Browser) :
    (onConnectionDisconnect s).1.outbound.systemPaused = true ∧
    (onConnectionDisconnect s).1.outbound.items = [] ∧
    (onConnectionDisconnect s).2 =
      [Effect.emitDisconnect false, Effect.connectCoreCalled InitialReconnectDelay] ∧
    (∀ n, reconnectWait n = min (1000 * 2 ^ n) 8000) ∧
    [reconnectWait 0, reconnectWait 1, reconnectWait 2, reconnectWait 3,
      reconnectWait 4] = [1000, 2000, 4000, 8000, 8000] := by
  refine ⟨?_, ?_, ?_, fun n => reconnectWait_formula n, by decide⟩ <;>
    simp [onConnectionDisconnect, h, clearQ, systemPauseQ]

/-- Witness for claim C8 at a freshly constructed browser-client manager. -/
theorem browser_reconnect_backoff_witness :
    (onConnectionDisconnect (initialManagerState Browser none)).1.outbound.systemPaused =
      true ∧
    (onConnectionDisconnect (initialManagerState Browser none)).1.outbound.items = [] ∧
    (onConnectionDisconnect (initialManagerState Browser none)).2 =
      [Effect.emitDisconnect false, Effect.connectCoreCalled InitialReconnectDelay] ∧
    (∀ n, reconnectWait n = min (1000 * 2 ^ n) 8000) ∧
    [reconnectWait 0, reconnectWait 1, reconnectWait 2, reconnectWait 3,
      reconnectWait 4] = [1000, 2000, 4000, 8000, 8000] :=
  browser_reconnect_backoff (initialManagerState Browser none) rfl

theorem outboundClientSeq_createOutboundMessage (type : MessageType)
    (core : IDocumentMessage) :
    outboundClientSeq (createOutboundMessage type core) = core.clientSequenceNumber := by
  unfold createOutboundMessage
  split <;> rfl

/-- Claim C9: with no connection established, `submitSignal` fails by
dereferencing the absent connection (a TypeError), while `submit` succeeds
while disconnected: it pushes the envelope onto the outbound queue without
touching the pause flags and assigns the next client sequence number. -/
theorem submitSignal_requires_connection (now : Nat) (s : DeltaManager)
    (content : String) (type : MessageType) (contents : Option String)
    (h : s.connection = none) :
    submitSignal s content =
      Except.error ("TypeError: this.connection is undefined") ∧
    (submit now s type contents).1.outbound.items =
      s.outbound.items ++ [(submit now s type contents).2] ∧
    (submit now s type contents).1.outbound.paused = s.outbound.paused ∧
    (submit now s type contents).1.outbound.systemPaused = s.outbound.systemPaused ∧
    outboundClientSeq (submit now s type contents).2 = s.clientSequenceNumber + 1 := by
  refine ⟨by simp [submitSignal, h], rfl, rfl, rfl, ?_⟩
  exact outboundClientSeq_createOutboundMessage type
    { clientSequenceNumber := s.clientSequenceNumber + 1
      contents := contents
      referenceSequenceNumber := s.baseSequenceNumber
      traces := [{ action := "start", service := s.clientType, timestamp := now }]
      type := type }

/-- Witness for claim C9 at a manager that never connected. -/
theorem submitSignal_requires_connection_witness :
    submitSignal (initialManagerState Browser none) ("sig-content") =
      Except.error ("TypeError: this.connection is undefined") :=
  (submitSignal_requires_connection 0 (initialManagerState Browser none)
    ("sig-content") MessageType.Operation (some ("op")) rfl).1

/- Iterated `fetchMissingDeltas` calls, used by claim C10. -/

def fetchMissingDeltasCalls :
    DeltaManager → List (Nat × Option Nat) → DeltaManager × List Effect
  | s, [] => (s, [])
  | s, (f, t) :: rest =>
    let r1 := fetchMissingDeltas s f t
    let r2 := fetchMissingDeltasCalls r1.1 rest
    (r2.1, r1.2 ++ r2.2)

theorem fetchMissingDeltasCalls_latched :
    ∀ (reqs : List (Nat × Option Nat)) (s : DeltaManager), s.fetching = true →
      fetchMissingDeltasCalls s reqs =
        (s, reqs.map (fun _ => Effect.telemetry ("fetchMissingDeltasAlreadyFetching"))) := by
  intro reqs
  induction reqs with
  | nil => intro s _; rfl
  | cons p rest ih =>
    intro s h
    obtain ⟨f, t⟩ := p
    simp [fetchMissingDeltasCalls, fetchMissingDeltas, h, ih s h]

/-- Claim C10: gap-fill error latch.  `fetchMissingDeltas` sets the
`fetching` flag and starts `getDeltas`; the installed continuation handles
only success, so when the `getDeltas` promise rejects the state is untouched
and `fetching` stays true; every subsequent `fetchMissingDeltas` call on that
manager then returns immediately with only the already-fetching telemetry and
never starts another fetch. -/
theorem fetch_error_latch (now : Nat) (s : DeltaManager) (fromSeq : Nat)
    (toSeq : Option Nat) (err : String) (reqs : List (Nat × Option Nat))
    (h : s.fetching = false) :
    (fetchMissingDeltas s fromSeq toSeq).1.fetching = true ∧
    (fetchMissingDeltas s fromSeq toSeq).2 = [Effect.fetchStarted fromSeq toSeq] ∧
    stepEvent now (fetchMissingDeltas s fromSeq toSeq).1
        (DMEvent.fetchResolved (Except.error err)) =
      ((fetchMissingDeltas s fromSeq toSeq).1, []) ∧
    fetchMissingDeltasCalls (fetchMissingDeltas s fromSeq toSeq).1 reqs =
      ((fetchMissingDeltas s fromSeq toSeq).1,
       reqs.map (fun _ => Effect.telemetry ("fetchMissingDeltasAlreadyFetching"))) := by
  have h1 : (fetchMissingDeltas s fromSeq toSeq).1.fetching = true := by
    simp [fetchMissingDeltas, h]
  refine ⟨h1, by simp [fetchMissingDeltas, h], rfl,
    fetchMissingDeltasCalls_latched reqs _ h1⟩

/-- Witness for claim C10 at a fresh manager with the rejecting fetch and two
subsequent gap-fill attempts. -/
theorem fetch_error_latch_witness :
    (fetchMissingDeltas (initialManagerState Browser none) 0 (some 3)).1.fetching = true ∧
    fetchMissingDeltasCalls
        (fetchMissingDeltas (initialManagerState Browser none) 0 (some 3)).1
        [(0, some 3), (0, some 5)] =
      ((fetchMissingDeltas (initialManagerState Browser none) 0 (some 3)).1,
       [Effect.telemetry ("fetchMissingDeltasAlreadyFetching"),
        Effect.telemetry ("fetchMissingDeltasAlreadyFetching")]) :=
  ⟨(fetch_error_latch 0 (initialManagerState Browser none) 0 (some 3) ("rejected")
      [(0, some 3), (0, some 5)] rfl).1,
   (fetch_error_latch 0 (initialManagerState Browser none) 0 (some 3) ("rejected")
      [(0, some 3), (0, some 5)] rfl).2.2.2⟩

end Fluid
